import Mathlib

/-
Shallow embedding of the Smart Movie Recommendation Assistant (tasks.py).

Strings are modelled as Lean `String` (a wrapper around `List Char`); the
Python text-matching helpers (substring containment, the `re` word-boundary
searches, `str.lower`, `str.split`, `int(...)`, list slicing) are embedded as
executable functions over `List Char`.  The model is ASCII-faithful: Python's
`str.lower`, `\w`, `\d` and `str.isdigit` also handle non-ASCII code points,
which this embedding (like Lean's `Char.toLower`/`Char.isAlphanum`) treats as
ordinary unaffected characters.

A Python dict with the six fixed slot keys becomes the structure
`FilledSlots` with one `Option String` field per slot; a missing key is
`none`.  Python's stable `sorted(..., reverse=True)` becomes a stable
insertion sort with a descending lexicographic key.
-/

namespace MovieSpec

/-! ## Basic text helpers (Python string semantics) -/

/-- Python `needle in haystack` for strings: substring containment
(the empty needle is contained in everything, as in Python). -/
def listContainsSub (needle : List Char) : List Char → Bool
  | [] => needle.isEmpty
  | c :: rest => needle.isPrefixOf (c :: rest) || listContainsSub needle rest

/-- Python `str.lower()` (ASCII model). -/
def lower (l : List Char) : List Char := l.map Char.toLower

/-- Python regex `\w`: letters, digits and underscore (ASCII model). -/
def wchar (c : Char) : Bool := c.isAlphanum || c == '_'

def optWord : Option Char → Bool
  | none => false
  | some c => wchar c

/-- Python regex `\b` between a left and a right context character
(`none` = string edge): a boundary iff exactly one side is a word char. -/
def bnd (l r : Option Char) : Bool := optWord l != optWord r

/-- Scans the text for an occurrence of the literal `a` with `\b` on both
sides, i.e. `re.search(r'\b' + re.escape(a) + r'\b', text)` as a Bool.
`prev` is the character immediately before the current position. -/
def searchFrom (a : List Char) (prev : Option Char) (t : List Char) : Bool :=
  (bnd prev a.head? && a.isPrefixOf t && bnd a.getLast? (List.head? (t.drop a.length)))
  || match t with
     | [] => false
     | c :: rest => searchFrom a (some c) rest

/-- Does `re.search(r'\b(a1|a2|...)\b', text)` succeed (as a Bool)?  Each
alternative is a literal (the `?`-optional characters of the source patterns
are expanded into the finitely many literal alternatives). -/
def reSearchWB (alts : List String) (t : List Char) : Bool :=
  alts.any (fun a => searchFrom a.data none t)

/-- One attempt of `\b(19|20)\d{2}\b` starting exactly at the head of `t`. -/
def yearAt (prev : Option Char) (t : List Char) : Option (List Char) :=
  match t with
  | c1 :: c2 :: c3 :: c4 :: rest =>
    if bnd prev (some c1)
       && ((c1 == '1' && c2 == '9') || (c1 == '2' && c2 == '0'))
       && c3.isDigit && c4.isDigit
       && bnd (some c4) rest.head?
    then some [c1, c2, c3, c4] else none
  | _ => none

/-- Leftmost match of `re.search(r'\b(19|20)\d{2}\b', text)`, returning the
matched four characters (`group(0)`). -/
def findYear (prev : Option Char) (t : List Char) : Option (List Char) :=
  match yearAt prev t with
  | some r => some r
  | none =>
    match t with
    | [] => none
    | c :: rest => findYear (some c) rest

/-- Python `str.split()` (no argument): split on runs of whitespace,
dropping empty pieces. -/
def splitWSAux (acc : List Char) : List Char → List (List Char)
  | [] => if acc.isEmpty then [] else [acc.reverse]
  | c :: t =>
    if c.isWhitespace then
      (if acc.isEmpty then splitWSAux [] t else acc.reverse :: splitWSAux [] t)
    else splitWSAux (c :: acc) t

def pySplitWS (l : List Char) : List (List Char) := splitWSAux [] l

/-- Python `str.strip()`: drop leading and trailing whitespace. -/
def pyStrip (s : String) : String :=
  String.mk (((s.data.dropWhile Char.isWhitespace).reverse.dropWhile Char.isWhitespace).reverse)

/-- Digit run with Python's underscore rule (single `_` only between digits),
accumulating the value; `none` on any malformed underscore. -/
def pyIntDigits (n : Nat) : List Char → Option Nat
  | [] => some n
  | c :: t =>
    if c.isDigit then pyIntDigits (n * 10 + (c.toNat - 48)) t
    else if c == '_' then
      match t with
      | d :: t2 => if d.isDigit then pyIntDigits (n * 10 + (d.toNat - 48)) t2 else none
      | [] => none
    else none

/-- Python `int(s)` for decimal strings: optional surrounding whitespace,
optional sign, then digits (with underscores between digits); `none` models
`ValueError`. -/
def pyInt (s : String) : Option Int :=
  let t := (s.data.dropWhile Char.isWhitespace)
  let t := (t.reverse.dropWhile Char.isWhitespace).reverse
  match t with
  | [] => none
  | '+' :: rest =>
    (match rest with
     | c :: _ => if c.isDigit then (pyIntDigits 0 rest).map (fun n => (n : Int)) else none
     | [] => none)
  | '-' :: rest =>
    (match rest with
     | c :: _ => if c.isDigit then (pyIntDigits 0 rest).map (fun n => -(n : Int)) else none
     | [] => none)
  | c :: rest => if c.isDigit then (pyIntDigits 0 (c :: rest)).map (fun n => (n : Int)) else none

/-- Python slicing `l[:k]` for an int `k` (negative `k` counts from the
end, clamped at zero). -/
def pySlice {α : Type} (k : Int) (l : List α) : List α :=
  if k < 0 then l.take ((l.length : Int) + k).toNat else l.take k.toNat

/-! ## Stable descending sort (Python `sorted(..., key=..., reverse=True)`) -/

/-- Lexicographic `≤` on the sort keys. -/
def keyLE (a b : Nat × Nat) : Bool :=
  decide (a.1 < b.1) || (decide (a.1 = b.1) && decide (a.2 ≤ b.2))

/-- Stable insertion for a descending sort: `x` goes in front of the first
element whose key is `≤` its own (so among equal keys, earlier-listed
elements stay first, matching Python's stable `sorted`). -/
def insertByKeyDesc {α : Type} (key : α → Nat × Nat) (x : α) : List α → List α
  | [] => [x]
  | y :: t => if keyLE (key y) (key x) then x :: y :: t else y :: insertByKeyDesc key x t

def sortByKeyDesc {α : Type} (key : α → Nat × Nat) (l : List α) : List α :=
  l.foldr (insertByKeyDesc key) []

/-! ## Data model -/

structure Movie where
  title : String
  genre : String
  release_year : Nat
  director : String
  language : String
  keywords : List String
  deriving DecidableEq, Repr

/-- MOVIE_DB entries as named records (anonymous-constructor field order:
title, genre, release_year, director, language, keywords). -/
def inception : Movie :=
  ⟨"Inception", "Sci-Fi/Action", 2010, "Christopher Nolan", "English",
   ["dream", "thriller", "mind-bending", "heist"]⟩

def parasite : Movie :=
  ⟨"Parasite", "Drama/Thriller", 2019, "Bong Joon Ho", "Korean",
   ["family", "social commentary", "dark comedy", "serious"]⟩

def theAvengers : Movie :=
  ⟨"The Avengers", "Sci-Fi/Action", 2012, "Joss Whedon", "English",
   ["superhero", "Marvel", "team-up", "blockbuster"]⟩

def laLaLand : Movie :=
  ⟨"La La Land", "Musical/Romance", 2016, "Damien Chazelle", "English",
   ["music", "love", "dream", "emotional"]⟩

def theDarkKnight : Movie :=
  ⟨"The Dark Knight", "Action/Drama", 2008, "Christopher Nolan", "English",
   ["superhero", "DC", "philosophical", "serious", "gritty"]⟩

def MOVIE_DB : List Movie := [inception, parasite, theAvengers, laLaLand, theDarkKnight]

/-- The six preference slots, in the fixed `DEFINED_SLOTS` key order. -/
inductive Slot where
  | genre
  | mood
  | release_era
  | director
  | language
  | runtime
  deriving DecidableEq, Repr

/-- DEFINED_SLOTS: slot plus its human-readable description (descriptions are
never used by the logic, only the key order matters). -/
def DEFINED_SLOTS : List (Slot × String) := [
  (Slot.genre, "The genre of the movie (e.g., Action, Drama, Romance, Sci-Fi, Comedy)."),
  (Slot.mood, "The desired mood for the movie (e.g., fun, dark, emotional, thought-provoking)."),
  (Slot.release_era, "Approximate release era (e.g., 1990s, 2000s, 2010s, modern)."),
  (Slot.director, "Prefer a film by a specific director."),
  (Slot.language, "Preferred language of the movie (e.g., English, Korean)."),
  (Slot.runtime, "Preferred runtime (short < 100 min, medium 100-140, long > 140).")]

/-- DEFINED_SLOTS.keys() in order. -/
def slotEnum : List Slot := DEFINED_SLOTS.map (fun kv => kv.1)

/-- The FilledSlots dict: one optional value per fixed slot key
(anonymous-constructor field order: genre, mood, release_era, director,
language, runtime).  `identify_slots` only ever writes these six keys, so a
missing dict key is `none`. -/
structure FilledSlots where
  genre : Option String
  mood : Option String
  release_era : Option String
  director : Option String
  language : Option String
  runtime : Option String
  deriving DecidableEq, Repr

def emptyFS : FilledSlots := ⟨none, none, none, none, none, none⟩

/-- Python `s in filled` (dict key membership). -/
def hasSlot (f : FilledSlots) : Slot → Bool
  | Slot.genre => f.genre.isSome
  | Slot.mood => f.mood.isSome
  | Slot.release_era => f.release_era.isSome
  | Slot.director => f.director.isSome
  | Slot.language => f.language.isSome
  | Slot.runtime => f.runtime.isSome

/-- Python `not filled_slots` (dict truthiness). -/
def fsIsEmpty (f : FilledSlots) : Bool :=
  f.genre.isNone && f.mood.isNone && f.release_era.isNone
    && f.director.isNone && f.language.isNone && f.runtime.isNone

/-! ## Task 2: slot identification (`identify_slots`) -/

/-- GENRE_SYNONYMS as an ordered association list (Python dict iteration
order is insertion order, and that order is load-bearing). -/
def GENRE_SYNONYMS : List (String × String) := [
  ("sci-fi", "Sci-Fi"),
  ("science fiction", "Sci-Fi"),
  ("science-fiction", "Sci-Fi"),
  ("action", "Action"),
  ("drama", "Drama"),
  ("romance", "Romance"),
  ("musical", "Musical"),
  ("comedy", "Comedy"),
  ("thriller", "Thriller"),
  ("superhero", "Sci-Fi/Action")]

def MOOD_KEYWORDS : List (String × List String) := [
  ("fun", ["fun", "light", "funny", "laugh", "comedic", "entertaining"]),
  ("serious", ["serious", "dark", "grim", "heavy", "thoughtful", "dramatic"]),
  ("emotional", ["emotional", "touching", "tear", "sad", "romantic"]),
  ("mind-bending", ["mind-bending", "twisty", "puzzling", "complex"]),
  ("blockbuster", ["blockbuster", "epic", "big", "spectacle"])]

/-- ERA_KEYWORDS keys in dict order; the ranges are recovered by
`eraBounds` below. -/
def ERA_LABELS : List String := ["1990s", "2000s", "2010s", "2020s", "classic"]

/-- `ERA_KEYWORDS.get(val, [])`: the `range(lo, hi)` attached to a label
(membership of year `y` means `lo ≤ y < hi`). -/
def eraBounds (val : String) : Option (Nat × Nat) :=
  if val == "1990s" then some (1990, 2000)
  else if val == "2000s" then some (2000, 2010)
  else if val == "2010s" then some (2010, 2020)
  else if val == "2020s" then some (2020, 2030)
  else if val == "classic" then some (1900, 1990)
  else none

/-- First table entry whose key occurs as a whole word (`\b...\b`) wins. -/
def detectGenre (text : List Char) : Option String :=
  (GENRE_SYNONYMS.find? (fun kv => searchFrom kv.1.data none text)).map (fun kv => kv.2)

/-- First mood whose any trigger substring occurs wins (plain `in`). -/
def detectMood (text : List Char) : Option String :=
  (MOOD_KEYWORDS.find? (fun mk => mk.2.any (fun kw => listContainsSub kw.data text))).map
    (fun mk => mk.1)

/-- `director_lower.split()[-1]` (catalog directors are never empty, so the
`[]` default of `getLast?` is unreachable there). -/
def lastWord (l : List Char) : List Char :=
  match (pySplitWS l).getLast? with
  | some w => w
  | none => []

/-- First catalog movie whose director's last name or full (lowercased) name
occurs as a substring wins. -/
def detectDirector (text : List Char) : Option String :=
  (MOVIE_DB.find? (fun movie =>
    listContainsSub (lastWord (lower movie.director.data)) text
    || listContainsSub (lower movie.director.data) text)).map (fun movie => movie.director)

/-- Year branch searches the ORIGINAL input (`user_input`), the decade
branch the lowercased text.  The stored value for a year match is
`str(int(group(0)))`, which equals the matched four digits verbatim (the
match starts with 1 or 2, so there is no leading zero to drop).
`era.replace('s','')` removes every `s` of the label. -/
def detectEra (orig : List Char) (text : List Char) : Option String :=
  match findYear none orig with
  | some ds => some (String.mk ds)
  | none =>
    ERA_LABELS.find? (fun era =>
      listContainsSub (era.data.filter (fun c => !(c == 's'))) text
      || listContainsSub era.data text)

/-- Catalog-language loop, then the unconditional "korean" and "english"
overrides, in source order ("english" applied last). -/
def detectLanguage (text : List Char) : Option String :=
  let base := (MOVIE_DB.find? (fun movie =>
    let lang := lower movie.language.data
    !lang.isEmpty && listContainsSub lang text)).map (fun movie => movie.language)
  let base := if listContainsSub "korean".data text then some "Korean" else base
  if listContainsSub "english".data text then some "English" else base

/-- Alternatives of `\b(short|under ?1 ?hr|< ?60|min)\b` with the optional
spaces expanded into literal alternatives. -/
def shortAlts : List String :=
  ["short", "under1hr", "under 1hr", "under1 hr", "under 1 hr", "<60", "< 60", "min"]

/-- Alternatives of `\b(long|epic|over ?2 ?hr|> ?120|min)\b` likewise. -/
def longAlts : List String :=
  ["long", "epic", "over2hr", "over 2hr", "over2 hr", "over 2 hr", ">120", "> 120", "min"]

/-- Short check first, then the long check overwrites it on a match. -/
def detectRuntime (text : List Char) : Option String :=
  let base := if reSearchWB shortAlts text then some "short" else none
  if reSearchWB longAlts text then some "long" else base

/-- identify_slots: run every detector on the lowercased text (the year
regex on the original input), then compose the missing list as
`[s for s in DEFINED_SLOTS.keys() if s not in filled]`. -/
def identify_slots (user_input : String) : FilledSlots × List Slot :=
  let text := lower user_input.data
  let filled : FilledSlots :=
    ⟨detectGenre text, detectMood text, detectEra user_input.data text,
     detectDirector text, detectLanguage text, detectRuntime text⟩
  (filled, slotEnum.filter (fun s => !(hasSlot filled s)))

/-! ## Candidate ranking (`_score_movie_against_slots`, `retrieve_candidates`) -/

/-- Era contribution: `int(val)` succeeds → +3 on exact year else +2 on same
decade (Python floor division); otherwise the label branch: value ends in
`s`, its first four chars are digits, `int` of them is truthy (nonzero), and
the year lies in the label's range → +2. -/
def eraScore (movie : Movie) (val : String) : Nat :=
  match pyInt val with
  | some y =>
    if (movie.release_year : Int) = y then 3
    else if (movie.release_year : Int).fdiv 10 = y.fdiv 10 then 2 else 0
  | none =>
    if val.data.getLast? == some 's' then
      (if 4 ≤ val.data.length && (val.data.take 4).all Char.isDigit then
        (let decade := (val.data.take 4).foldl (fun n c => n * 10 + (c.toNat - 48)) 0
         if decade != 0 then
           (match eraBounds val with
            | some b => if b.1 ≤ movie.release_year && movie.release_year < b.2 then 2 else 0
            | none => 0)
         else 0)
      else 0)
    else 0

/-- Mood contribution: +1 for each keyword that contains the mood string or
any whitespace token of it (as substrings of the lowercased keyword), plus
+1 if the mood string occurs in the lowercased title. -/
def moodScore (movie : Movie) (mood : String) : Nat :=
  (movie.keywords.filter (fun kw =>
    listContainsSub mood.data (lower kw.data)
    || (pySplitWS mood.data).any (fun t => listContainsSub t (lower kw.data)))).length
  + (if listContainsSub mood.data (lower movie.title.data) then 1 else 0)

/-- _score_movie_against_slots: +3 genre substring, +4 director exact, +2
language exact (all case-insensitive), plus the era and mood parts. -/
def score_movie_against_slots (movie : Movie) (filled_slots : FilledSlots) : Nat :=
  (match filled_slots.genre with
   | some g => if listContainsSub (lower g.data) (lower movie.genre.data) then 3 else 0
   | none => 0)
  + (match filled_slots.director with
     | some d => if lower d.data = lower movie.director.data then 4 else 0
     | none => 0)
  + (match filled_slots.language with
     | some l => if lower movie.language.data = lower l.data then 2 else 0
     | none => 0)
  + (match filled_slots.release_era with
     | some val => eraScore movie val
     | none => 0)
  + (match filled_slots.mood with
     | some mood => moodScore movie mood
     | none => 0)

/-- `sorted(scored, key=lambda x: (x[0], x[1].get('release_year', 0)),
reverse=True)` over the `(score, movie)` pairs. -/
def scoredSorted (f : FilledSlots) : List (Nat × Movie) :=
  sortByKeyDesc (fun x => (x.1, x.2.release_year))
    (MOVIE_DB.map (fun movie => (score_movie_against_slots movie f, movie)))

/-- `[m for s, m in scored_sorted if s > 0]` (before the `[:top_k]` slice). -/
def posCandidates (f : FilledSlots) : List Movie :=
  ((scoredSorted f).filter (fun x => decide (0 < x.1))).map (fun x => x.2)

/-- `sorted(MOVIE_DB, key=lambda m: m.get('release_year', 0), reverse=True)`. -/
def recentFallback : List Movie :=
  sortByKeyDesc (fun m => (m.release_year, 0)) MOVIE_DB

/-- retrieve_candidates (the source's default `top_k` is 3; callers here
pass it explicitly).  `top_k` is an `Int` because Python slicing accepts
negative values. -/
def retrieve_candidates (filled_slots : FilledSlots) (top_k : Int) : List Movie :=
  if fsIsEmpty filled_slots then pySlice top_k MOVIE_DB
  else
    let top := pySlice top_k (posCandidates filled_slots)
    if top.isEmpty then pySlice top_k recentFallback
    else top

/-! ## Task 1 and 3: prompts (pure templating, no decision logic) -/

def SYSTEM_PROMPT : String :=
  "\nYou are a friendly and knowledgeable movie expert. You ask smart, concise clarifying questions that help users get a tailored movie suggestion.\nConstraints:\n- Always ask at least one clarifying question before recommending a final movie title.\n- Keep tone warm, brief and professional.\n- When possible, prefer single, specific clarifying questions that are easy to answer (yes/no or short phrases).\n"

def FEW_SHOT_EXAMPLES : List (String × String) := [
  ("I liked the new Nolan movie.",
   "Christopher Nolan\x27s films are fantastic! To help me narrow it down, are you in the mood for a more thoughtful thriller (e.g., Inception) or a darker, gritty superhero drama (e.g., The Dark Knight)?"),
  ("Something romantic but upbeat.",
   "Nice — do you prefer musicals (songs integrated in story) or romantic comedies (lighthearted, modern)? A one-word answer like \x27musical\x27 or \x27rom-com\x27 is perfect.")]

def formatCandidatesForPrompt (candidates : List Movie) : String :=
  if candidates.isEmpty then "No strong candidates found in the local DB."
  else
    String.intercalate "\n" (candidates.map (fun c =>
      "- " ++ c.title ++ " (" ++ toString c.release_year ++ ") — genre: " ++ c.genre
        ++ ", director: " ++ c.director))

def slotLine (k : String) (v : Option String) : List String :=
  match v with
  | some s => ["- " ++ k ++ ": " ++ s]
  | none => []

/-- The filled slots listed in the dict's insertion order as produced by
`identify_slots` (genre, mood, director, release_era, language, runtime —
the order of first assignment in the source). -/
def slotItems (f : FilledSlots) : List String :=
  slotLine "genre" f.genre ++ slotLine "mood" f.mood ++ slotLine "director" f.director
    ++ slotLine "release_era" f.release_era ++ slotLine "language" f.language
    ++ slotLine "runtime" f.runtime

def PROMPT_INSTRUCTION : String :=
  "\nINSTRUCTION (A): You are the assistant. Based on the information above, ask exactly one concise, specific clarifying question that will most improve the recommendation. The question should be easy to answer (one or two words ideally). Do NOT recommend a movie yet. If all slots are already thoroughly filled, ask for a final small confirmation (e.g., \x27Do you prefer something gritty or light?\x27)."

def build_dynamic_prompt (user_input : String) (filled_slots : FilledSlots)
    (candidates : List Movie) : String :=
  let parts : List String :=
    [pyStrip SYSTEM_PROMPT, "\nFEW-SHOT EXAMPLES:"]
    ++ FEW_SHOT_EXAMPLES.map (fun ex => "User: " ++ ex.1 ++ "\nAssistant: " ++ ex.2 ++ "\n")
    ++ ["USER REQUEST:", pyStrip user_input, "IDENTIFIED SLOTS:"]
    ++ (let lines := slotItems filled_slots
        if lines.isEmpty then ["- (none identified)"] else lines)
    ++ ["RETRIEVED CANDIDATES (R):", formatCandidatesForPrompt candidates, PROMPT_INSTRUCTION]
  String.intercalate "\n\n" parts

/-- FilledSlots holding only director = "Christopher Nolan" (the C4/C2
scenario input). -/
def fsNolan : FilledSlots := ⟨none, none, none, some "Christopher Nolan", none, none⟩

/-- FilledSlots holding only a mood no catalog entry matches — every movie
scores 0 against it (exercises the ranker's fallback path). -/
def fsZ : FilledSlots := ⟨none, some "zzzz", none, none, none, none⟩

/-! ## Clarification policy (`get_ai_response`) -/

def starterQuestion : String :=
  "Got it — to start, what type of movie would you like (genre, mood, or director)?"

def grittyQuestion : String :=
  "Great — for action, do you want something gritty/realistic or a fun blockbuster?"

def directorQuestion (d : String) : String :=
  "Do you want something by " ++ d ++ " specifically, or films with a similar tone?"

def moodQuestion (m : String) : String :=
  "You mentioned \x27" ++ m ++ "\x27. Would you prefer a milder or a stronger version of that mood?"

def confirmQuestion : String :=
  "Thanks — one quick check: do you prefer newer releases or are older films okay?"

/-- The per-slot question templates of the missing-slot branch. -/
def questionFor : Slot → String
  | Slot.genre => "Sure — what genre are you in the mood for? (e.g., Action, Drama, Comedy, Romance)"
  | Slot.mood => "Would you like something more light/fun or more serious/intense?"
  | Slot.release_era => "Any preference for release era — classic, 1990s, 2000s, 2010s, or recent?"
  | Slot.director => "Do you prefer a specific director or filmmaker? If yes, name them (e.g., Nolan)."
  | Slot.language => "Do you have a preferred language? (e.g., English, Korean, Spanish)"
  | Slot.runtime => "Do you prefer a short (<100 min), medium (100-140 min), or long (>140 min) movie?"

/-- `filled_slots.get("genre") and "Action" in filled_slots.get("genre")`:
key present, value truthy (non-empty) and containing "Action"
(case-sensitive). -/
def genreActionFlag : Option String → Bool
  | some g => !(g.data.isEmpty) && listContainsSub "Action".data g.data
  | none => false

/-- The State-B cascade (all branches after the missing-slot block). -/
def stateB (f : FilledSlots) : String :=
  if fsIsEmpty f then starterQuestion
  else if genreActionFlag f.genre then grittyQuestion
  else
    match f.director with
    | some d => directorQuestion d
    | none =>
      match f.mood with
      | some m => moodQuestion m
      | none => confirmQuestion

def priority : List Slot :=
  [Slot.genre, Slot.mood, Slot.release_era, Slot.director, Slot.language, Slot.runtime]

/-- The question selection of `get_ai_response`: with missing slots, the
first priority slot that is missing gets its template; otherwise the
State-B cascade.  (The inner `none` arm is unreachable: a non-empty missing
list always contains a priority slot, since `priority` lists every `Slot`;
in the source an absent match would leave `slot_to_ask` unbound.) -/
def chooseQuestion (f : FilledSlots) (m : List Slot) : String :=
  if m.isEmpty then stateB f
  else
    match priority.find? (fun p => decide (p ∈ m)) with
    | some p => questionFor p
    | none => stateB f

set_option linter.unusedVariables false in
/-- get_ai_response: identify slots, retrieve candidates (default top_k=3),
build the dynamic prompt (computed and then unused, as in the source), and
answer with the rule-based clarifying question. -/
def get_ai_response (user_input : String) : String :=
  let fm := identify_slots user_input
  let candidates := retrieve_candidates fm.1 3
  let final_prompt := build_dynamic_prompt user_input fm.1 candidates
  chooseQuestion fm.1 fm.2

/-! ## General lemmas about the embedding -/

theorem mem_insertByKeyDesc {α : Type} (key : α → Nat × Nat) (a x : α) (l : List α) :
    x ∈ insertByKeyDesc key a l ↔ x = a ∨ x ∈ l := by
  induction l with
  | nil => simp [insertByKeyDesc]
  | cons y t ih =>
    simp only [insertByKeyDesc]
    split
    · simp [List.mem_cons]
    · simp [List.mem_cons, ih, or_left_comm]

theorem mem_sortByKeyDesc {α : Type} (key : α → Nat × Nat) (l : List α) (x : α) :
    x ∈ sortByKeyDesc key l ↔ x ∈ l := by
  induction l with
  | nil => simp [sortByKeyDesc]
  | cons y t ih =>
    rw [show sortByKeyDesc key (y :: t) = insertByKeyDesc key y (sortByKeyDesc key t) from rfl,
      mem_insertByKeyDesc, ih, List.mem_cons]

theorem pySlice_nonneg {α : Type} (k : Int) (h : 0 ≤ k) (l : List α) :
    pySlice k l = l.take k.toNat := by
  unfold pySlice
  rw [if_neg (by omega)]

theorem identify_slots_snd (s : String) :
    (identify_slots s).2 = slotEnum.filter (fun k => !(hasSlot (identify_slots s).1 k)) := rfl

theorem get_ai_response_eq (s : String) :
    get_ai_response s = chooseQuestion (identify_slots s).1 (identify_slots s).2 := rfl

theorem fs_empty_eq (f : FilledSlots) (h : fsIsEmpty f = true) : f = emptyFS := by
  obtain ⟨g, m, e, d, l, r⟩ := f
  simp only [fsIsEmpty, Bool.and_eq_true, Option.isNone_iff_eq_none] at h
  obtain ⟨⟨⟨⟨⟨hg, hm⟩, he⟩, hd⟩, hl⟩, hr⟩ := h
  subst hg; subst hm; subst he; subst hd; subst hl; subst hr
  rfl

theorem fsIsEmpty_false_of_genre (f : FilledSlots) (h : hasSlot f Slot.genre = true) :
    fsIsEmpty f = false := by
  cases hg : f.genre with
  | none =>
    have h2 : f.genre.isSome = true := h
    rw [hg] at h2
    exact absurd h2 (by decide)
  | some g =>
    unfold fsIsEmpty
    rw [hg]
    rfl

theorem head_directorQuestion (d : String) :
    (directorQuestion d).data.head? = some 'D' := by
  obtain ⟨dd⟩ := d
  rfl

theorem head_moodQuestion (m : String) :
    (moodQuestion m).data.head? = some 'Y' := by
  obtain ⟨md⟩ := m
  rfl

theorem qmark_directorQuestion (d : String) : '?' ∈ (directorQuestion d).data := by
  obtain ⟨dd⟩ := d
  show '?' ∈ ("Do you want something by ".data ++ dd)
    ++ " specifically, or films with a similar tone?".data
  exact List.mem_append_right _ (by decide)

theorem qmark_moodQuestion (m : String) : '?' ∈ (moodQuestion m).data := by
  obtain ⟨md⟩ := m
  show '?' ∈ ("You mentioned \x27".data ++ md)
    ++ "\x27. Would you prefer a milder or a stronger version of that mood?".data
  exact List.mem_append_right _ (by decide)

theorem ne_empty_of_head (a : String) (c : Char) (h : a.data.head? = some c) :
    a ≠ "" := by
  intro he
  rw [he] at h
  exact Option.noConfusion h

theorem ne_starter_of_head (a : String) (c : Char) (hc : a.data.head? = some c)
    (hG : c ≠ 'G') : a ≠ starterQuestion := by
  intro he
  rw [he] at hc
  have h2 : some 'G' = some c := hc
  exact hG (Option.some.inj h2).symm

theorem stateB_props (f : FilledSlots) : stateB f ≠ "" ∧ '?' ∈ (stateB f).data := by
  unfold stateB
  by_cases h1 : fsIsEmpty f = true
  · rw [if_pos h1]
    exact ⟨by decide, by decide⟩
  · rw [if_neg h1]
    by_cases h2 : genreActionFlag f.genre = true
    · rw [if_pos h2]
      exact ⟨by decide, by decide⟩
    · rw [if_neg h2]
      cases hd : f.director with
      | some d => exact ⟨ne_empty_of_head _ 'D' (head_directorQuestion d), qmark_directorQuestion d⟩
      | none =>
        cases hm : f.mood with
        | some m => exact ⟨ne_empty_of_head _ 'Y' (head_moodQuestion m), qmark_moodQuestion m⟩
        | none => exact ⟨by decide, by decide⟩

theorem stateB_ne_starter (f : FilledSlots) (hne : fsIsEmpty f = false) :
    stateB f ≠ starterQuestion := by
  unfold stateB
  rw [if_neg (by rw [hne]; exact Bool.false_ne_true)]
  by_cases h2 : genreActionFlag f.genre = true
  · rw [if_pos h2]
    decide
  · rw [if_neg h2]
    cases hd : f.director with
    | some d => exact ne_starter_of_head _ 'D' (head_directorQuestion d) (by decide)
    | none =>
      cases hm : f.mood with
      | some m => exact ne_starter_of_head _ 'Y' (head_moodQuestion m) (by decide)
      | none => decide

theorem find_priority_some (m : List Slot) (hm : m ≠ []) :
    ∃ p, priority.find? (fun p => decide (p ∈ m)) = some p := by
  cases m with
  | nil => exact absurd rfl hm
  | cons k t =>
    cases hF : priority.find? (fun p => decide (p ∈ (k :: t))) with
    | some p => exact ⟨p, rfl⟩
    | none =>
      exfalso
      have hkp : k ∈ priority := by cases k <;> decide
      have := List.find?_eq_none.mp hF k hkp
      simp at this

theorem chooseQuestion_props (f : FilledSlots) (m : List Slot) :
    chooseQuestion f m ≠ "" ∧ '?' ∈ (chooseQuestion f m).data := by
  unfold chooseQuestion
  by_cases hm : m.isEmpty = true
  · rw [if_pos hm]
    exact stateB_props f
  · rw [if_neg hm]
    have hmne : m ≠ [] := by
      intro h0
      rw [h0] at hm
      exact hm rfl
    obtain ⟨p, hp⟩ := find_priority_some m hmne
    rw [hp]
    show questionFor p ≠ "" ∧ '?' ∈ (questionFor p).data
    cases p <;> exact ⟨by decide, by decide⟩

theorem posCandidates_nil (f : FilledSlots)
    (hz : ∀ m, m ∈ MOVIE_DB → score_movie_against_slots m f = 0) :
    posCandidates f = [] := by
  unfold posCandidates
  rw [List.map_eq_nil_iff, List.filter_eq_nil_iff]
  intro x hx
  unfold scoredSorted at hx
  rw [mem_sortByKeyDesc] at hx
  obtain ⟨movie, hmm, hxe⟩ := List.mem_map.mp hx
  rw [← hxe]
  simp [hz movie hmm]

theorem recentFallback_eq :
    recentFallback = [parasite, laLaLand, theAvengers, inception, theDarkKnight] := by decide

theorem pySlice_zero {α : Type} (l : List α) : pySlice 0 l = [] := by
  unfold pySlice
  rw [if_neg (by omega)]
  rfl

/-! ## The claims -/

/-- C1: for every input string, including the empty string, get_ai_response
returns a non-empty string that contains at least one "?" character. -/
theorem claim_c1 (s : String) :
    get_ai_response s ≠ "" ∧ '?' ∈ (get_ai_response s).data := by
  rw [get_ai_response_eq]
  exact chooseQuestion_props _ _

/-- C2: for every FilledSlots and every top_k ≥ 1, retrieve_candidates
returns between 1 and top_k entries — never the empty list — over the
non-empty fixed catalog; and when FilledSlots is non-empty but no entry
scores above 0, it returns the top_k catalog entries sorted by release_year
descending (Parasite 2019, La La Land 2016, The Avengers 2012,
Inception 2010, The Dark Knight 2008). -/
theorem claim_c2 (f : FilledSlots) (k : Int) (hk : 1 ≤ k) :
    1 ≤ (retrieve_candidates f k).length
    ∧ ((retrieve_candidates f k).length : Int) ≤ k
    ∧ (fsIsEmpty f = false →
        (∀ m, m ∈ MOVIE_DB → score_movie_against_slots m f = 0) →
        retrieve_candidates f k
          = [parasite, laLaLand, theAvengers, inception, theDarkKnight].take k.toNat) := by
  have h0 : 0 ≤ k := by omega
  have hdb : MOVIE_DB.length = 5 := rfl
  by_cases hf : fsIsEmpty f = true
  · have hre : retrieve_candidates f k = MOVIE_DB.take k.toNat := by
      unfold retrieve_candidates
      rw [if_pos hf, pySlice_nonneg k h0]
    have hlen : (retrieve_candidates f k).length = min k.toNat 5 := by
      rw [hre, List.length_take, hdb]
    refine ⟨?_, ?_, ?_⟩
    · rw [hlen]; omega
    · rw [hlen]; omega
    · intro hfe _
      rw [hf] at hfe
      exact absurd hfe (by decide)
  · have hre : retrieve_candidates f k =
        if ((posCandidates f).take k.toNat).isEmpty then recentFallback.take k.toNat
        else (posCandidates f).take k.toNat := by
      unfold retrieve_candidates
      rw [if_neg hf]
      simp only [pySlice_nonneg k h0]
    rw [hre]
    by_cases ht : ((posCandidates f).take k.toNat).isEmpty = true
    · rw [if_pos ht, recentFallback_eq]
      have hlen5 :
          (([parasite, laLaLand, theAvengers, inception, theDarkKnight] : List Movie).take
            k.toNat).length = min k.toNat 5 := by
        rw [List.length_take]
        rfl
      refine ⟨?_, ?_, fun _ _ => rfl⟩
      · rw [hlen5]; omega
      · rw [hlen5]; omega
    · rw [if_neg ht]
      have htne : (posCandidates f).take k.toNat ≠ [] := fun h00 => ht (by rw [h00]; rfl)
      refine ⟨?_, ?_, ?_⟩
      · have := List.length_pos.mpr htne
        omega
      · have h2 : ((posCandidates f).take k.toNat).length ≤ k.toNat := by
          rw [List.length_take]
          omega
        omega
      · intro _ hz
        exfalso
        have hnil := posCandidates_nil f hz
        rw [hnil] at htne
        exact htne List.take_nil

theorem claim_c2_witness :
    1 ≤ (retrieve_candidates fsZ 2).length
    ∧ ((retrieve_candidates fsZ 2).length : Int) ≤ 2
    ∧ (fsIsEmpty fsZ = false →
        (∀ m, m ∈ MOVIE_DB → score_movie_against_slots m fsZ = 0) →
        retrieve_candidates fsZ 2
          = [parasite, laLaLand, theAvengers, inception, theDarkKnight].take (2 : Int).toNat) :=
  claim_c2 fsZ 2 (by decide)

/-- C3: for every input string, identify_slots fills only keys of the fixed
6-slot enumeration, and the missing list is exactly the complement of the
filled keys, in the fixed `DEFINED_SLOTS` enumeration order. -/
theorem claim_c3 (s : String) :
    (identify_slots s).2 = slotEnum.filter (fun k => !(hasSlot (identify_slots s).1 k))
    ∧ (∀ k : Slot, hasSlot (identify_slots s).1 k = true → k ∈ slotEnum)
    ∧ (∀ k : Slot, k ∈ (identify_slots s).2 ↔ hasSlot (identify_slots s).1 k = false) := by
  refine ⟨identify_slots_snd s, fun k _ => by cases k <;> decide, fun k => ?_⟩
  rw [identify_slots_snd s, List.mem_filter]
  have hk : k ∈ slotEnum := by cases k <;> decide
  simp [hk, Bool.not_eq_true']

/-- C4: retrieve_candidates with only director = "Christopher Nolan" and
top_k = 3 returns exactly Inception then The Dark Knight: both score ≥ 4
via the exact director match, every other entry scores 0 and is excluded,
and the tie is broken by release_year descending (2010 before 2008). -/
theorem claim_c4 :
    retrieve_candidates fsNolan 3 = [inception, theDarkKnight]
    ∧ 4 ≤ score_movie_against_slots inception fsNolan
    ∧ 4 ≤ score_movie_against_slots theDarkKnight fsNolan
    ∧ score_movie_against_slots parasite fsNolan = 0
    ∧ score_movie_against_slots theAvengers fsNolan = 0
    ∧ score_movie_against_slots laLaLand fsNolan = 0
    ∧ inception.release_year = 2010 ∧ theDarkKnight.release_year = 2008 := by decide

/-- C5 counterexample: at top_k = -1 (≤ 0) with empty FilledSlots the
function returns `MOVIE_DB[:-1]`, the first four catalog entries — not the
empty list the claim asserts. -/
theorem claim_c5_counterexample :
    retrieve_candidates emptyFS (-1) = [inception, parasite, theAvengers, laLaLand]
    ∧ retrieve_candidates emptyFS (-1) ≠ [] := by decide

/-- C5 amended: for every FilledSlots, retrieve_candidates with top_k = 0
returns the empty list (and raises no error: the embedding is total); for
negative top_k the Python slice `[:top_k]` semantics apply, which can yield
a non-empty list. -/
theorem claim_c5_amended (f : FilledSlots) : retrieve_candidates f 0 = [] := by
  unfold retrieve_candidates
  by_cases hf : fsIsEmpty f = true
  · rw [if_pos hf]
    exact pySlice_zero _
  · rw [if_neg hf]
    simp [pySlice_zero]

/-- C6 counterexample: "minutes" lowercases to itself and contains the
literal substring "min", yet neither runtime pattern matches (the regexes
require word boundaries around "min"), so the runtime slot stays unfilled
instead of being set to "long". -/
theorem claim_c6_counterexample :
    listContainsSub "min".data (lower "minutes".data) = true
    ∧ (identify_slots "minutes").1.runtime ≠ some "long"
    ∧ (identify_slots "minutes").1.runtime = none := by decide

/-- C6 amended: for every input string whose lowercased text contains "min"
as a whole regex word (word boundaries on both sides), both the short and
the long runtime patterns match, and because the long check is applied
after the short check, identify_slots fills the runtime slot with "long". -/
theorem claim_c6_amended (s : String)
    (h : searchFrom "min".data none (lower s.data) = true) :
    reSearchWB shortAlts (lower s.data) = true
    ∧ reSearchWB longAlts (lower s.data) = true
    ∧ (identify_slots s).1.runtime = some "long" := by
  have hs : reSearchWB shortAlts (lower s.data) = true :=
    List.any_eq_true.mpr ⟨"min", by decide, h⟩
  have hl : reSearchWB longAlts (lower s.data) = true :=
    List.any_eq_true.mpr ⟨"min", by decide, h⟩
  refine ⟨hs, hl, ?_⟩
  show detectRuntime (lower s.data) = some "long"
  unfold detectRuntime
  simp [hl]

theorem claim_c6_witness :
    searchFrom "min".data none (lower "90 min".data) = true
    ∧ (reSearchWB shortAlts (lower "90 min".data) = true
       ∧ reSearchWB longAlts (lower "90 min".data) = true
       ∧ (identify_slots "90 min").1.runtime = some "long") :=
  ⟨by decide, claim_c6_amended "90 min" (by decide)⟩

set_option linter.unusedVariables false in
/-- C7: for every input string whose lowercased text contains both "korean"
and "english", identify_slots fills the language slot with "English": the
explicit-word overrides run unconditionally after the catalog loop, and the
"english" check is applied last. -/
theorem claim_c7 (s : String)
    (hk : listContainsSub "korean".data (lower s.data) = true)
    (he : listContainsSub "english".data (lower s.data) = true) :
    (identify_slots s).1.language = some "English" := by
  show detectLanguage (lower s.data) = some "English"
  unfold detectLanguage
  simp [he]

theorem claim_c7_witness :
    listContainsSub "korean".data (lower "korean english".data) = true
    ∧ listContainsSub "english".data (lower "korean english".data) = true
    ∧ (identify_slots "korean english").1.language = some "English" :=
  ⟨by decide, by decide, claim_c7 "korean english" (by decide) (by decide)⟩

/-- C8: whenever identify_slots fills all six slots and the filled genre
value contains "Action", get_ai_response returns exactly the fixed
gritty-vs-blockbuster question, regardless of the other filled values. -/
theorem claim_c8 (s g : String) (h1 : (identify_slots s).2 = [])
    (h2 : (identify_slots s).1.genre = some g)
    (h3 : listContainsSub "Action".data g.data = true) :
    get_ai_response s = grittyQuestion := by
  rw [get_ai_response_eq, h1]
  unfold chooseQuestion
  rw [if_pos List.isEmpty_nil]
  unfold stateB
  have hne : fsIsEmpty (identify_slots s).1 = false := by
    apply fsIsEmpty_false_of_genre
    have : (identify_slots s).1.genre.isSome = true := by rw [h2]; rfl
    exact this
  rw [if_neg (by rw [hne]; exact Bool.false_ne_true)]
  have hgd : g.data.isEmpty = false := by
    cases hgl : g.data with
    | nil =>
      rw [hgl] at h3
      exact absurd h3 (by decide)
    | cons a t => rfl
  have hflag : genreActionFlag (identify_slots s).1.genre = true := by
    rw [h2]
    show (!g.data.isEmpty && listContainsSub "Action".data g.data) = true
    rw [hgd, h3]
    rfl
  rw [if_pos hflag]

theorem claim_c8_witness :
    (identify_slots "action fun nolan 2010 english 90 min").2 = []
    ∧ (identify_slots "action fun nolan 2010 english 90 min").1.genre = some "Action"
    ∧ listContainsSub "Action".data ("Action" : String).data = true
    ∧ get_ai_response "action fun nolan 2010 english 90 min" = grittyQuestion :=
  ⟨by decide, by decide, by decide,
   claim_c8 "action fun nolan 2010 english 90 min" "Action" (by decide) (by decide) (by decide)⟩

/-- C9: the final safety-fallback starter question is unreachable: an empty
FilledSlots forces the full missing list (all six slots), so the
missing-slot branch answers first, and no branch ever returns the starter
question. -/
theorem claim_c9 (s : String) :
    (fsIsEmpty (identify_slots s).1 = true → (identify_slots s).2 = slotEnum)
    ∧ get_ai_response s ≠ starterQuestion := by
  constructor
  · intro hEmp
    rw [identify_slots_snd s, fs_empty_eq _ hEmp]
    decide
  · rw [get_ai_response_eq]
    by_cases hm : (identify_slots s).2 = []
    · have hg : hasSlot (identify_slots s).1 Slot.genre = true := by
        cases hgb : hasSlot (identify_slots s).1 Slot.genre with
        | true => rfl
        | false =>
          exfalso
          have hmem : Slot.genre ∈ (identify_slots s).2 := by
            rw [identify_slots_snd s]
            exact List.mem_filter.mpr ⟨by decide, by simp [hgb]⟩
          rw [hm] at hmem
          exact absurd hmem (by decide)
      rw [hm]
      unfold chooseQuestion
      rw [if_pos List.isEmpty_nil]
      exact stateB_ne_starter _ (fsIsEmpty_false_of_genre _ hg)
    · obtain ⟨p, hp⟩ := find_priority_some _ hm
      unfold chooseQuestion
      rw [if_neg (fun hI => hm (List.isEmpty_iff.mp hI)), hp]
      show questionFor p ≠ starterQuestion
      cases p <;> decide

/-- C10: the chosen question depends only on the identify_slots result —
the retrieved candidates and the assembled prompt, though computed, have no
influence on the returned question. -/
theorem claim_c10 (s1 s2 : String) (h : identify_slots s1 = identify_slots s2) :
    get_ai_response s1 = get_ai_response s2 := by
  rw [get_ai_response_eq, get_ai_response_eq, h]

theorem claim_c10_witness :
    identify_slots "fun" = identify_slots "funny"
    ∧ get_ai_response "fun" = get_ai_response "funny" :=
  ⟨by decide, claim_c10 "fun" "funny" (by decide)⟩

end MovieSpec



